import Mathlib

/-!
Verification development for the SQL join visualizer repository.

The two source files `JOINDATASETSV1.py` and `SQLapp2.py` implement the join
engine as a function `execute_join` dispatching on a join-type string and
delegating to the pandas `merge` primitive.  This file gives a shallow
embedding of that engine over an explicit relation type and proves the
claimed properties of the seven join variants.

Modelling notes, matching the behaviour of the `pandas.merge` primitive the
source delegates to:
* a cell is an integer, a string, or the missing sentinel (`NaN`);
* `merge` matches two rows when their key cells are equal, and the missing
  sentinel is an ordinary key value there, so a missing key matches another
  missing key (pandas factorizes `NaN` like any other key value);
* when the left and the right key column carry the same name, the right key
  column is dropped from the output and, in outer and right joins, the kept
  key column is filled from the right side for rows with no left match
  (pandas coalesces equal-named join keys);
* column names present on both sides after the key drop are disambiguated
  with the `_x` and `_y` suffixes;
* selecting an absent column of a dataframe raises `KeyError`; the embedding
  returns `Except.error` for that, and for `merge` called with a key that is
  not a column of its relation.
-/

set_option maxRecDepth 4000

/-- Cell value of a relation: integer, string, or the missing sentinel
(`NaN` in the source). -/
inductive Value where
  | int : Int → Value
  | str : String → Value
  | missing : Value
deriving DecidableEq

/-- Tabular relation: ordered column names and rows of cells.  Well-formed
rows have exactly one cell per column; that is carried as a hypothesis where
a theorem needs it. -/
structure Relation where
  cols : List String
  rows : List (List Value)
deriving DecidableEq

/-- Test for the missing sentinel, the embedding of `isna`. -/
def Value.isna : Value → Bool
  | .missing => true
  | _ => false

/-- Cell of row `r` (laid out along `cols`) in the column named `c`; the
missing sentinel when the column is absent or the row is short. -/
def cellVal (cols : List String) (r : List Value) (c : String) : Value :=
  match cols.findIdx? (· == c) with
  | some i => r.getD i .missing
  | none => .missing

/-- Join-key match test used by every variant: the key cell of the A row
equals the key cell of the B row.  Plain value equality, under which the
missing sentinel equals itself, exactly as pandas factorizes `NaN` keys. -/
def keyMatch (A B : Relation) (ka kb : String) (a b : List Value) : Bool :=
  cellVal A.cols a ka == cellVal B.cols b kb

/-- Rows of B matching a given A row, in B scan order. -/
def matchesOf (A B : Relation) (ka kb : String) (a : List Value) : List (List Value) :=
  B.rows.filter (fun b => keyMatch A B ka kb a b)

/-- Rows of A matching a given B row, in A scan order. -/
def revMatchesOf (A B : Relation) (ka kb : String) (b : List Value) : List (List Value) :=
  A.rows.filter (fun a => keyMatch A B ka kb a b)

/-- Columns of B kept in the merged output: when the two key names are equal,
pandas drops the right key column. -/
def rightCols (B : Relation) (ka kb : String) : List String :=
  if ka = kb then B.cols.filter (fun c => !(c == kb)) else B.cols

/-- Cells of a B row kept in the merged output, aligned with `rightCols`. -/
def rightCells (B : Relation) (ka kb : String) (b : List Value) : List Value :=
  if ka = kb then ((B.cols.zip b).filter (fun p => !(p.1 == kb))).map Prod.snd else b

/-- Column names of the merged output: the columns of A, then the kept
columns of B, names present on both sides suffixed with `_x` and `_y`. -/
def mergedCols (A B : Relation) (ka kb : String) : List String :=
  (A.cols.map (fun c => if c ∈ rightCols B ka kb then c ++ "_x" else c)) ++
    ((rightCols B ka kb).map (fun c => if c ∈ A.cols then c ++ "_y" else c))

/-- All-missing padding of length `n`. -/
def missingPad (n : Nat) : List Value := List.replicate n .missing

/-- A-side cells of an output row for a B row with no A match: all missing,
except that when the key names coincide the single kept key column is filled
from the B row (pandas coalesces equal-named join keys). -/
def leftPadded (A B : Relation) (ka kb : String) (b : List Value) : List Value :=
  A.cols.map (fun c => if ka = kb ∧ c = ka then cellVal B.cols b kb else .missing)

/-- Output row for a matched pair. -/
def pairRow (B : Relation) (ka kb : String) (a b : List Value) : List Value :=
  a ++ rightCells B ka kb b

/-- Rows of the inner join: for each A row in order, one output row per
matching B row, in B order. -/
def innerRows (A B : Relation) (ka kb : String) : List (List Value) :=
  A.rows.flatMap (fun a => (matchesOf A B ka kb a).map (pairRow B ka kb a))

/-- Rows of the left join: every A row, fanned out over its matches, or
padded with missing B cells when it has none. -/
def leftRows (A B : Relation) (ka kb : String) : List (List Value) :=
  A.rows.flatMap (fun a =>
    let ms := matchesOf A B ka kb a
    if ms.isEmpty then [a ++ missingPad (rightCols B ka kb).length]
    else ms.map (pairRow B ka kb a))

/-- Rows of the right join: every B row, fanned out over its matches, or
padded with missing A cells when it has none. -/
def rightRows (A B : Relation) (ka kb : String) : List (List Value) :=
  B.rows.flatMap (fun b =>
    let ms := revMatchesOf A B ka kb b
    if ms.isEmpty then [leftPadded A B ka kb b ++ rightCells B ka kb b]
    else ms.map (fun a => pairRow B ka kb a b))

/-- Rows of the full outer join: the left-join rows, then the B rows with no
match, padded on the A side. -/
def outerRows (A B : Relation) (ka kb : String) : List (List Value) :=
  leftRows A B ka kb ++
    ((B.rows.filter (fun b => (revMatchesOf A B ka kb b).isEmpty)).map
      (fun b => leftPadded A B ka kb b ++ rightCells B ka kb b))

/-- Join flavor passed to the merge primitive. -/
inductive How where
  | inn : How
  | left : How
  | right : How
  | outer : How
deriving DecidableEq

/-- Rows of the merged output for each flavor. -/
def joinRows (A B : Relation) (ka kb : String) : How → List (List Value)
  | .inn => innerRows A B ka kb
  | .left => leftRows A B ka kb
  | .right => rightRows A B ka kb
  | .outer => outerRows A B ka kb

/-- Embedding of `pd.merge(A, B, left_on = ka, right_on = kb, how = how)`:
a `KeyError` when either key is not a column of its relation, otherwise the
merged relation. -/
def merge (A B : Relation) (ka kb : String) (how : How) : Except String Relation :=
  if ka ∈ A.cols then
    if kb ∈ B.cols then
      .ok ⟨mergedCols A B ka kb, joinRows A B ka kb how⟩
    else .error ("KeyError: " ++ kb)
  else .error ("KeyError: " ++ ka)

/-- Embedding of `R[c].isna()`: one boolean per row, or a `KeyError` when
the column is absent. -/
def isnaCol (R : Relation) (c : String) : Except String (List Bool) :=
  match R.cols.findIdx? (· == c) with
  | some i => .ok (R.rows.map (fun r => (r.getD i .missing).isna))
  | none => .error ("KeyError: " ++ c)

/-- Embedding of `R[mask]`: keep the rows whose mask entry is true. -/
def maskFilter (R : Relation) (mask : List Bool) : Relation :=
  ⟨R.cols, ((R.rows.zip mask).filter (fun p => p.2)).map Prod.fst⟩

/-- Pointwise disjunction of two boolean masks. -/
def orMask (m1 m2 : List Bool) : List Bool :=
  List.zipWith (fun x y => x || y) m1 m2

namespace JOINDATASETSV1

/-- Embedding of `load_sample_data` from `JOINDATASETSV1.py`. -/
def load_sample_data : Relation × Relation :=
  (⟨["emp_id", "name", "department"],
    [[.int 1, .str "John", .str "IT"],
     [.int 2, .str "Jane", .str "HR"],
     [.int 3, .str "Bob", .str "IT"],
     [.int 4, .str "Alice", .str "Finance"],
     [.int 5, .str "Charlie", .str "Marketing"]]⟩,
   ⟨["emp_id", "salary", "bonus"],
    [[.int 2, .int 60000, .int 5000],
     [.int 3, .int 75000, .int 7500],
     [.int 4, .int 65000, .int 6000],
     [.int 6, .int 80000, .int 8000],
     [.int 7, .int 70000, .int 7000]]⟩)

/-- Embedding of `execute_join(df_a, df_b, join_type, key_a, key_b)` from
`JOINDATASETSV1.py`.  `none` models the Python function falling through
every branch and returning `None`; `some (.error e)` models an exception
raised inside a branch.  The WITH-NULL branches filter the merged result on
missingness of the first column of `df_a` or of `df_b`, looked up by name in
the merged output, exactly as `merged[df_a.columns[0]].isna()` does. -/
def execute_join (df_a df_b : Relation) (join_type key_a key_b : String) :
    Option (Except String Relation) :=
  if join_type = "INNER JOIN" then some (merge df_a df_b key_a key_b .inn)
  else if join_type = "FULL JOIN" then some (merge df_a df_b key_a key_b .outer)
  else if join_type = "FULL JOIN WITH NULLS" then some (do
    let merged ← merge df_a df_b key_a key_b .outer
    let ma ← isnaCol merged (df_a.cols.headD "")
    let mb ← isnaCol merged (df_b.cols.headD "")
    pure (maskFilter merged (orMask ma mb)))
  else if join_type = "LEFT JOIN" then some (merge df_a df_b key_a key_b .left)
  else if join_type = "LEFT JOIN WITH NULL" then some (do
    let merged ← merge df_a df_b key_a key_b .left
    let mb ← isnaCol merged (df_b.cols.headD "")
    pure (maskFilter merged mb))
  else if join_type = "RIGHT JOIN" then some (merge df_a df_b key_a key_b .right)
  else if join_type = "RIGHT JOIN WITH NULL" then some (do
    let merged ← merge df_a df_b key_a key_b .right
    let ma ← isnaCol merged (df_a.cols.headD "")
    pure (maskFilter merged ma))
  else none

end JOINDATASETSV1

namespace SQLapp2

/-- Embedding of `generate_sample_data` from `SQLapp2.py`: same tables as
the other file. -/
def generate_sample_data : Relation × Relation :=
  JOINDATASETSV1.load_sample_data

/-- Embedding of `execute_join(df_a, df_b, join_type)` from `SQLapp2.py`:
always merges on the literal column `emp_id` of both sides, and the
WITH-NULL branches filter on missingness of the literal columns `name` and
`salary` of the merged output. -/
def execute_join (df_a df_b : Relation) (join_type : String) :
    Option (Except String Relation) :=
  if join_type = "INNER JOIN" then some (merge df_a df_b "emp_id" "emp_id" .inn)
  else if join_type = "FULL JOIN" then some (merge df_a df_b "emp_id" "emp_id" .outer)
  else if join_type = "FULL JOIN WITH NULLS" then some (do
    let merged ← merge df_a df_b "emp_id" "emp_id" .outer
    let ma ← isnaCol merged "name"
    let mb ← isnaCol merged "salary"
    pure (maskFilter merged (orMask ma mb)))
  else if join_type = "LEFT JOIN" then some (merge df_a df_b "emp_id" "emp_id" .left)
  else if join_type = "LEFT JOIN WITH NULL" then some (do
    let merged ← merge df_a df_b "emp_id" "emp_id" .left
    let mb ← isnaCol merged "salary"
    pure (maskFilter merged mb))
  else if join_type = "RIGHT JOIN" then some (merge df_a df_b "emp_id" "emp_id" .right)
  else if join_type = "RIGHT JOIN WITH NULL" then some (do
    let merged ← merge df_a df_b "emp_id" "emp_id" .right
    let ma ← isnaCol merged "name"
    pure (maskFilter merged ma))
  else none

end SQLapp2

/-- Number of rows of a join-engine result, zero when the engine returned
nothing or failed. -/
def numRows : Option (Except String Relation) → Nat
  | some (.ok R) => R.rows.length
  | _ => 0

/-- Count of A rows with no match in B. -/
def unmatchedLeftCount (A B : Relation) (ka kb : String) : Nat :=
  (A.rows.filter (fun a => (matchesOf A B ka kb a).isEmpty)).length

/-- Count of B rows with no match in A. -/
def unmatchedRightCount (A B : Relation) (ka kb : String) : Nat :=
  (B.rows.filter (fun b => (revMatchesOf A B ka kb b).isEmpty)).length

/-- All pairs of an A row and a B row, in left-major scan order. -/
def rowPairs (A B : Relation) : List (List Value × List Value) :=
  A.rows.flatMap (fun a => B.rows.map (fun b => (a, b)))

/-- Spec-side description of the INNER result, used as the refinement target
for the matched-pairs claim: the pairs `(a, b)` of rows with equal key
cells, every combination, in left-major order. -/
def specInnerPairs (A B : Relation) (ka kb : String) : List (List Value × List Value) :=
  (rowPairs A B).filter (fun p => keyMatch A B ka kb p.1 p.2)

/-- The seven join-type labels recognized by `execute_join`. -/
def recognizedJoinTypes : List String :=
  ["INNER JOIN", "FULL JOIN", "FULL JOIN WITH NULLS", "LEFT JOIN",
   "LEFT JOIN WITH NULL", "RIGHT JOIN", "RIGHT JOIN WITH NULL"]

/-- Whether a join-engine result is an error. -/
def isErr : Option (Except String Relation) → Bool
  | some (.error _) => true
  | _ => false

/-- Condition under which a WITH-NULL filter of the engine raises a
KeyError even though both join keys are valid: the filtered column name
(the first column of the respective input) is absent from the merged
output, typically because the merge renamed it with a suffix. -/
def filterColFails (A B : Relation) (ka kb jt : String) : Bool :=
  if jt = "FULL JOIN WITH NULLS" then
    ((mergedCols A B ka kb).findIdx? (· == A.cols.headD "")).isNone ||
      ((mergedCols A B ka kb).findIdx? (· == B.cols.headD "")).isNone
  else if jt = "LEFT JOIN WITH NULL" then
    ((mergedCols A B ka kb).findIdx? (· == B.cols.headD "")).isNone
  else if jt = "RIGHT JOIN WITH NULL" then
    ((mergedCols A B ka kb).findIdx? (· == A.cols.headD "")).isNone
  else false

/-! ### Helper lemmas about the embedding -/

lemma isna_eq_true_iff (v : Value) : v.isna = true ↔ v = .missing := by
  cases v <;> simp [Value.isna]

lemma isna_eq_false_iff (v : Value) : v.isna = false ↔ v ≠ .missing := by
  cases v <;> simp [Value.isna]

lemma merge_ok {A B : Relation} {ka kb : String} (how : How)
    (hka : ka ∈ A.cols) (hkb : kb ∈ B.cols) :
    merge A B ka kb how = .ok ⟨mergedCols A B ka kb, joinRows A B ka kb how⟩ := by
  simp [merge, hka, hkb]

lemma exec1_inner (A B : Relation) (ka kb : String) :
    JOINDATASETSV1.execute_join A B "INNER JOIN" ka kb =
      some (merge A B ka kb .inn) := rfl

lemma exec1_full (A B : Relation) (ka kb : String) :
    JOINDATASETSV1.execute_join A B "FULL JOIN" ka kb =
      some (merge A B ka kb .outer) := rfl

lemma exec1_fwn (A B : Relation) (ka kb : String) :
    JOINDATASETSV1.execute_join A B "FULL JOIN WITH NULLS" ka kb = some (do
      let merged ← merge A B ka kb .outer
      let ma ← isnaCol merged (A.cols.headD "")
      let mb ← isnaCol merged (B.cols.headD "")
      pure (maskFilter merged (orMask ma mb))) := rfl

lemma exec1_left (A B : Relation) (ka kb : String) :
    JOINDATASETSV1.execute_join A B "LEFT JOIN" ka kb =
      some (merge A B ka kb .left) := rfl

lemma exec1_lwn (A B : Relation) (ka kb : String) :
    JOINDATASETSV1.execute_join A B "LEFT JOIN WITH NULL" ka kb = some (do
      let merged ← merge A B ka kb .left
      let mb ← isnaCol merged (B.cols.headD "")
      pure (maskFilter merged mb)) := rfl

lemma exec1_right (A B : Relation) (ka kb : String) :
    JOINDATASETSV1.execute_join A B "RIGHT JOIN" ka kb =
      some (merge A B ka kb .right) := rfl

lemma exec1_rwn (A B : Relation) (ka kb : String) :
    JOINDATASETSV1.execute_join A B "RIGHT JOIN WITH NULL" ka kb = some (do
      let merged ← merge A B ka kb .right
      let ma ← isnaCol merged (A.cols.headD "")
      pure (maskFilter merged ma)) := rfl

lemma zip_mask_filter {α : Type _} (l : List α) (f : α → Bool) :
    ((l.zip (l.map f)).filter (fun p => p.2)).map Prod.fst = l.filter f := by
  induction l with
  | nil => rfl
  | cons a l ih =>
    by_cases h : f a <;>
      simp [List.zip_cons_cons, List.filter_cons, h, ih]

lemma maskFilter_map (R : Relation) (f : List Value → Bool) :
    maskFilter R (R.rows.map f) = ⟨R.cols, R.rows.filter f⟩ := by
  unfold maskFilter
  rw [zip_mask_filter]

lemma orMask_map {α : Type _} (l : List α) (f g : α → Bool) :
    orMask (l.map f) (l.map g) = l.map (fun a => f a || g a) := by
  simp [orMask, List.zipWith_map_left, List.zipWith_map_right, List.zipWith_same]

lemma flatMap_ite_singleton {α β : Type _} (l : List α) (p : α → Bool) (f : α → β) :
    l.flatMap (fun a => if p a then [f a] else []) = (l.filter p).map f := by
  induction l with
  | nil => rfl
  | cons a l ih =>
    by_cases h : p a <;> simp [h, ih, List.filter_cons]

lemma length_flatMap_padded {α β γ : Type _} (l : List α) (f : α → List β)
    (g : α → β → γ) (pad : α → γ) :
    (l.flatMap (fun a =>
        if (f a).isEmpty then [pad a] else (f a).map (g a))).length =
      (l.flatMap (fun a => (f a).map (g a))).length +
        (l.filter (fun a => (f a).isEmpty)).length := by
  induction l with
  | nil => rfl
  | cons a l ih =>
    by_cases h : (f a).isEmpty
    · have hnil : f a = [] := List.isEmpty_iff.mp h
      simp [List.flatMap_cons, h, hnil, List.filter_cons, ih]
      omega
    · simp [List.flatMap_cons, h, List.filter_cons, ih]
      omega

lemma sum_length_filter_cons_step {α β : Type _} (p : α → β → Bool)
    (a : α) (l1 : List α) (l2 : List β) :
    (l2.map (fun b => ((a :: l1).filter (fun x => p x b)).length)).sum =
      (l2.filter (fun b => p a b)).length +
        (l2.map (fun b => (l1.filter (fun x => p x b)).length)).sum := by
  induction l2 with
  | nil => simp
  | cons b l2 ih =>
    simp only [List.map_cons, List.sum_cons]
    rw [ih]
    by_cases h : p a b <;> simp [List.filter_cons, h] <;> omega

lemma sum_filter_length_comm {α β : Type _} (p : α → β → Bool)
    (l1 : List α) (l2 : List β) :
    (l1.map (fun a => (l2.filter (fun b => p a b)).length)).sum =
      (l2.map (fun b => (l1.filter (fun a => p a b)).length)).sum := by
  induction l1 with
  | nil => simp
  | cons a l1 ih =>
    rw [sum_length_filter_cons_step]
    simp only [List.map_cons, List.sum_cons, ih]

/-! ### Claim theorems -/

/-- C2 (code_bug): on the built-in sample data joined on `emp_id`, the
`SQLapp2.py` engine yields the claimed row counts 3, 7, 4, 5, 2, 5, 2 for
the seven variants in the order of `recognizedJoinTypes`, but the
`JOINDATASETSV1.py` engine yields 3, 7, 0, 5, 0, 5, 0: its three WITH-NULL
variants filter on the first column of each input, which for the sample
data is the join key `emp_id`; the merge coalesces the equal-named key
columns into one column that is never missing, so the filters keep no row
at all instead of the claimed 4, 2 and 2 rows. -/
theorem sample_data_row_counts :
    recognizedJoinTypes.map (fun jt =>
        numRows (SQLapp2.execute_join SQLapp2.generate_sample_data.1
          SQLapp2.generate_sample_data.2 jt)) = [3, 7, 4, 5, 2, 5, 2] ∧
    recognizedJoinTypes.map (fun jt =>
        numRows (JOINDATASETSV1.execute_join JOINDATASETSV1.load_sample_data.1
          JOINDATASETSV1.load_sample_data.2 jt "emp_id" "emp_id")) =
      [3, 7, 0, 5, 0, 5, 0] := by
  exact ⟨rfl, rfl⟩

/-- C10 (confirmed): the WITH-NULL filters test missingness of a fixed
column of an input table, not matchedness.  Concretely, a B row that
matches on the join key but carries a missing value in the filtered column
(the literal `salary` in `SQLapp2.py`, the first column of `df_b` in
`JOINDATASETSV1.py`) is kept by LEFT JOIN WITH NULL, although the very same
input produces that row in the INNER JOIN, i.e. it is a matched pair. -/
theorem with_null_filter_tests_fixed_column :
    SQLapp2.execute_join ⟨["emp_id"], [[.int 1]]⟩
        ⟨["salary", "emp_id"], [[.missing, .int 1]]⟩ "LEFT JOIN WITH NULL" =
      some (.ok ⟨["emp_id", "salary"], [[.int 1, .missing]]⟩) ∧
    SQLapp2.execute_join ⟨["emp_id"], [[.int 1]]⟩
        ⟨["salary", "emp_id"], [[.missing, .int 1]]⟩ "INNER JOIN" =
      some (.ok ⟨["emp_id", "salary"], [[.int 1, .missing]]⟩) ∧
    JOINDATASETSV1.execute_join ⟨["emp_id"], [[.int 1]]⟩
        ⟨["salary", "emp_id"], [[.missing, .int 1]]⟩ "LEFT JOIN WITH NULL"
        "emp_id" "emp_id" =
      some (.ok ⟨["emp_id", "salary"], [[.int 1, .missing]]⟩) := by
  exact ⟨rfl, rfl, rfl⟩

/-- C5 (counterexample): the claim says a missing key value matches
nothing, including another missing value.  The engine delegates matching to
the merge primitive, which factorizes the missing sentinel like any other
key value: joining a single A row with missing key to a single B row with
missing key, INNER JOIN emits the combined pair instead of nothing. -/
theorem missing_matches_missing_cex :
    JOINDATASETSV1.execute_join ⟨["ka"], [[.missing]]⟩ ⟨["kb"], [[.missing]]⟩
        "INNER JOIN" "ka" "kb" =
      some (.ok ⟨["ka", "kb"], [[.missing, .missing]]⟩) := rfl

/-- C5 (amended): a matched pair never combines a missing key cell with a
non-missing one, in either direction; but a missing key cell does match a
missing key cell on the other side, because the merge primitive treats the
missing sentinel as an ordinary key value.  `matchesOf` is the matching
step every join variant of the engine feeds on. -/
theorem missing_key_match_semantics (A B : Relation) (ka kb : String)
    (a b : List Value) (hb : b ∈ B.rows) :
    (cellVal A.cols a ka = .missing → cellVal B.cols b kb ≠ .missing →
      b ∉ matchesOf A B ka kb a) ∧
    (cellVal A.cols a ka ≠ .missing → cellVal B.cols b kb = .missing →
      b ∉ matchesOf A B ka kb a) ∧
    (cellVal A.cols a ka = .missing → cellVal B.cols b kb = .missing →
      b ∈ matchesOf A B ka kb a) := by
  have hmem : b ∈ matchesOf A B ka kb a ↔
      b ∈ B.rows ∧ cellVal A.cols a ka = cellVal B.cols b kb := by
    simp [matchesOf, List.mem_filter, keyMatch]
  refine ⟨fun h1 h2 hm => ?_, fun h1 h2 hm => ?_, fun h1 h2 => ?_⟩
  · have he := (hmem.mp hm).2
    rw [h1] at he
    exact h2 he.symm
  · have he := (hmem.mp hm).2
    rw [h2] at he
    exact h1 he
  · exact hmem.mpr ⟨hb, by rw [h1, h2]⟩

/-- Witness for `missing_key_match_semantics` at a concrete input. -/
theorem missing_key_match_semantics_witness :
    [(Value.missing : Value)] ∈ (Relation.mk ["kb"] [[Value.missing]]).rows ∧
    ((cellVal (Relation.mk ["ka"] [[Value.missing]]).cols [Value.missing] "ka" = .missing →
        cellVal (Relation.mk ["kb"] [[Value.missing]]).cols [Value.missing] "kb" ≠ .missing →
        [Value.missing] ∉ matchesOf ⟨["ka"], [[Value.missing]]⟩ ⟨["kb"], [[Value.missing]]⟩
          "ka" "kb" [Value.missing]) ∧
      (cellVal (Relation.mk ["ka"] [[Value.missing]]).cols [Value.missing] "ka" ≠ .missing →
        cellVal (Relation.mk ["kb"] [[Value.missing]]).cols [Value.missing] "kb" = .missing →
        [Value.missing] ∉ matchesOf ⟨["ka"], [[Value.missing]]⟩ ⟨["kb"], [[Value.missing]]⟩
          "ka" "kb" [Value.missing]) ∧
      (cellVal (Relation.mk ["ka"] [[Value.missing]]).cols [Value.missing] "ka" = .missing →
        cellVal (Relation.mk ["kb"] [[Value.missing]]).cols [Value.missing] "kb" = .missing →
        [Value.missing] ∈ matchesOf ⟨["ka"], [[Value.missing]]⟩ ⟨["kb"], [[Value.missing]]⟩
          "ka" "kb" [Value.missing])) :=
  ⟨by decide,
   missing_key_match_semantics ⟨["ka"], [[Value.missing]]⟩ ⟨["kb"], [[Value.missing]]⟩
     "ka" "kb" [Value.missing] [Value.missing] (by decide)⟩

/-- C3 (counterexample): FULL JOIN WITH NULLS filters on the first column
of each input, not on the key columns.  Here the keys are `j` and `k`, both
key cells of the single matched pair are non-missing, yet the row is kept
because the first column `x` of A holds a missing value; the same row is
the INNER JOIN output, so the kept set is not FULL minus INNER. -/
theorem full_with_nulls_matched_row_cex :
    JOINDATASETSV1.execute_join ⟨["x", "j"], [[.missing, .int 1]]⟩
        ⟨["y", "k"], [[.int 5, .int 1]]⟩ "FULL JOIN WITH NULLS" "j" "k" =
      some (.ok ⟨["x", "j", "y", "k"], [[.missing, .int 1, .int 5, .int 1]]⟩) ∧
    JOINDATASETSV1.execute_join ⟨["x", "j"], [[.missing, .int 1]]⟩
        ⟨["y", "k"], [[.int 5, .int 1]]⟩ "INNER JOIN" "j" "k" =
      some (.ok ⟨["x", "j", "y", "k"], [[.missing, .int 1, .int 5, .int 1]]⟩) := by
  exact ⟨rfl, rfl⟩

/-- C4 (counterexample): LEFT JOIN WITH NULL filters on the first column of
B, not on the B-side key.  Here the single A row matches the single B row
on the keys `j` and `k`, yet the output keeps the row because the first
column `s` of B holds a missing value; its B-side key cell `k` is the
non-missing value 1, refuting both that only key-missing rows survive and
that every kept row is missing in all B-origin columns. -/
theorem left_with_null_matched_row_cex :
    JOINDATASETSV1.execute_join ⟨["j"], [[.int 1]]⟩
        ⟨["s", "k"], [[.missing, .int 1]]⟩ "LEFT JOIN WITH NULL" "j" "k" =
      some (.ok ⟨["j", "s", "k"], [[.int 1, .missing, .int 1]]⟩) := rfl

/-- C7 (counterexample): with both join keys valid, the engine can still
fail: the LEFT JOIN WITH NULL filter selects the first column of B in the
merged output, and when that name was suffix-renamed by the merge (because
both inputs carry a column `p`), the selection raises KeyError. -/
theorem valid_keys_filter_error_cex :
    JOINDATASETSV1.execute_join ⟨["p", "j"], [[.int 1, .int 1]]⟩
        ⟨["p", "k"], [[.int 2, .int 1]]⟩ "LEFT JOIN WITH NULL" "j" "k" =
      some (.error "KeyError: p") ∧
    "j" ∈ (Relation.mk ["p", "j"] [[.int 1, .int 1]]).cols ∧
    "k" ∈ (Relation.mk ["p", "k"] [[.int 2, .int 1]]).cols := by
  exact ⟨rfl, by decide, by decide⟩

/-- C9 (confirmed): on any join-type string other than the seven recognized
labels, both engines fall through every branch and return no result at all
(`none`), rather than a relation or an error. -/
theorem unknown_join_type_none (A B A2 B2 : Relation) (jt ka kb : String)
    (h : jt ∉ recognizedJoinTypes) :
    JOINDATASETSV1.execute_join A B jt ka kb = none ∧
      SQLapp2.execute_join A2 B2 jt = none := by
  simp only [recognizedJoinTypes, List.mem_cons, List.mem_singleton, not_or] at h
  obtain ⟨h1, h2, h3, h4, h5, h6, h7⟩ := h
  constructor <;>
    simp [JOINDATASETSV1.execute_join, SQLapp2.execute_join,
      h1, h2, h3, h4, h5, h6, h7]

/-- Witness for `unknown_join_type_none` at a concrete unrecognized label. -/
theorem unknown_join_type_none_witness :
    "CROSS JOIN" ∉ recognizedJoinTypes ∧
    (JOINDATASETSV1.execute_join ⟨["a"], []⟩ ⟨["b"], []⟩ "CROSS JOIN" "a" "b" = none ∧
      SQLapp2.execute_join ⟨["a"], []⟩ ⟨["b"], []⟩ "CROSS JOIN" = none) :=
  ⟨by decide,
   unknown_join_type_none ⟨["a"], []⟩ ⟨["b"], []⟩ ⟨["a"], []⟩ ⟨["b"], []⟩
     "CROSS JOIN" "a" "b" (by decide)⟩

lemma innerRows_eq_spec (A B : Relation) (ka kb : String) :
    innerRows A B ka kb =
      (specInnerPairs A B ka kb).map (fun p => pairRow B ka kb p.1 p.2) := by
  unfold innerRows specInnerPairs rowPairs matchesOf
  rw [List.filter_flatMap, List.map_flatMap]
  refine List.flatMap_congr (fun a _ => ?_)
  rw [List.filter_map, List.map_map]
  rfl

/-- C1 (confirmed): on valid keys, INNER JOIN returns exactly the matched
pairs: the output rows are, in left-major scan order, one combined row per
pair (a, b) of input rows with equal key cells, every combination emitted
and nothing deduplicated; a row of either side with no match on the other
contributes nothing. -/
theorem inner_join_matched_pairs (A B : Relation) (ka kb : String)
    (hka : ka ∈ A.cols) (hkb : kb ∈ B.cols) :
    JOINDATASETSV1.execute_join A B "INNER JOIN" ka kb =
      some (.ok ⟨mergedCols A B ka kb,
        (specInnerPairs A B ka kb).map (fun p => pairRow B ka kb p.1 p.2)⟩) ∧
    ∀ r, r ∈ innerRows A B ka kb ↔
      ∃ a, a ∈ A.rows ∧ ∃ b, b ∈ B.rows ∧
        cellVal A.cols a ka = cellVal B.cols b kb ∧ r = pairRow B ka kb a b := by
  constructor
  · rw [exec1_inner, merge_ok .inn hka hkb, ← innerRows_eq_spec]
    rfl
  · intro r
    simp only [innerRows, List.mem_flatMap, List.mem_map, matchesOf,
      List.mem_filter, keyMatch, beq_iff_eq]
    constructor
    · rintro ⟨a, ha, b, ⟨hbB, hbk⟩, hr⟩
      exact ⟨a, ha, b, hbB, hbk, hr.symm⟩
    · rintro ⟨a, ha, b, hbB, hbk, hr⟩
      exact ⟨a, ha, b, ⟨hbB, hbk⟩, hr.symm⟩

/-- Witness for `inner_join_matched_pairs` at the sample data. -/
theorem inner_join_matched_pairs_witness :
    ("emp_id" ∈ JOINDATASETSV1.load_sample_data.1.cols ∧
      "emp_id" ∈ JOINDATASETSV1.load_sample_data.2.cols) ∧
    (JOINDATASETSV1.execute_join JOINDATASETSV1.load_sample_data.1
        JOINDATASETSV1.load_sample_data.2 "INNER JOIN" "emp_id" "emp_id" =
      some (.ok ⟨mergedCols JOINDATASETSV1.load_sample_data.1
          JOINDATASETSV1.load_sample_data.2 "emp_id" "emp_id",
        (specInnerPairs JOINDATASETSV1.load_sample_data.1
            JOINDATASETSV1.load_sample_data.2 "emp_id" "emp_id").map
          (fun p => pairRow JOINDATASETSV1.load_sample_data.2 "emp_id" "emp_id"
            p.1 p.2)⟩) ∧
    ∀ r, r ∈ innerRows JOINDATASETSV1.load_sample_data.1
        JOINDATASETSV1.load_sample_data.2 "emp_id" "emp_id" ↔
      ∃ a, a ∈ JOINDATASETSV1.load_sample_data.1.rows ∧
        ∃ b, b ∈ JOINDATASETSV1.load_sample_data.2.rows ∧
          cellVal JOINDATASETSV1.load_sample_data.1.cols a "emp_id" =
              cellVal JOINDATASETSV1.load_sample_data.2.cols b "emp_id" ∧
            r = pairRow JOINDATASETSV1.load_sample_data.2 "emp_id" "emp_id" a b) :=
  ⟨⟨by decide, by decide⟩,
   inner_join_matched_pairs JOINDATASETSV1.load_sample_data.1
     JOINDATASETSV1.load_sample_data.2 "emp_id" "emp_id" (by decide) (by decide)⟩

lemma length_innerRows (A B : Relation) (ka kb : String) :
    (innerRows A B ka kb).length =
      (A.rows.map (fun a => (matchesOf A B ka kb a).length)).sum := by
  simp [innerRows, List.length_flatMap, Function.comp_def]

lemma length_leftRows (A B : Relation) (ka kb : String) :
    (leftRows A B ka kb).length =
      (innerRows A B ka kb).length + unmatchedLeftCount A B ka kb := by
  unfold leftRows innerRows unmatchedLeftCount
  exact length_flatMap_padded A.rows (matchesOf A B ka kb) (pairRow B ka kb)
    (fun a => a ++ missingPad (rightCols B ka kb).length)

lemma length_rightRows (A B : Relation) (ka kb : String) :
    (rightRows A B ka kb).length =
      (innerRows A B ka kb).length + unmatchedRightCount A B ka kb := by
  unfold rightRows unmatchedRightCount
  rw [length_flatMap_padded B.rows (revMatchesOf A B ka kb)
    (fun b a => pairRow B ka kb a b)
    (fun b => leftPadded A B ka kb b ++ rightCells B ka kb b)]
  congr 1
  rw [List.length_flatMap, length_innerRows]
  simp only [Function.comp_def, List.length_map]
  unfold revMatchesOf matchesOf
  exact (sum_filter_length_comm (fun a b => keyMatch A B ka kb a b) A.rows B.rows).symm

lemma length_outerRows (A B : Relation) (ka kb : String) :
    (outerRows A B ka kb).length =
      (leftRows A B ka kb).length + unmatchedRightCount A B ka kb := by
  simp [outerRows, unmatchedRightCount]

/-- C6 (confirmed): on valid keys the output row counts of the engine
satisfy the inclusion-exclusion identity FULL + INNER = LEFT + RIGHT (hence
FULL = LEFT + RIGHT - INNER), LEFT = INNER plus the number of A rows with
no match in B, and symmetrically RIGHT = INNER plus the number of B rows
with no match in A. -/
theorem join_count_identities (A B : Relation) (ka kb : String)
    (hka : ka ∈ A.cols) (hkb : kb ∈ B.cols) :
    numRows (JOINDATASETSV1.execute_join A B "FULL JOIN" ka kb) +
        numRows (JOINDATASETSV1.execute_join A B "INNER JOIN" ka kb) =
      numRows (JOINDATASETSV1.execute_join A B "LEFT JOIN" ka kb) +
        numRows (JOINDATASETSV1.execute_join A B "RIGHT JOIN" ka kb) ∧
    numRows (JOINDATASETSV1.execute_join A B "FULL JOIN" ka kb) =
      numRows (JOINDATASETSV1.execute_join A B "LEFT JOIN" ka kb) +
          numRows (JOINDATASETSV1.execute_join A B "RIGHT JOIN" ka kb) -
        numRows (JOINDATASETSV1.execute_join A B "INNER JOIN" ka kb) ∧
    numRows (JOINDATASETSV1.execute_join A B "LEFT JOIN" ka kb) =
      numRows (JOINDATASETSV1.execute_join A B "INNER JOIN" ka kb) +
        unmatchedLeftCount A B ka kb ∧
    numRows (JOINDATASETSV1.execute_join A B "RIGHT JOIN" ka kb) =
      numRows (JOINDATASETSV1.execute_join A B "INNER JOIN" ka kb) +
        unmatchedRightCount A B ka kb := by
  rw [exec1_inner, exec1_full, exec1_left, exec1_right,
    merge_ok .inn hka hkb, merge_ok .outer hka hkb,
    merge_ok .left hka hkb, merge_ok .right hka hkb]
  simp only [numRows, joinRows]
  have hl := length_leftRows A B ka kb
  have hr := length_rightRows A B ka kb
  have ho := length_outerRows A B ka kb
  omega

/-- Witness for `join_count_identities` at the sample data. -/
theorem join_count_identities_witness :
    ("emp_id" ∈ JOINDATASETSV1.load_sample_data.1.cols ∧
      "emp_id" ∈ JOINDATASETSV1.load_sample_data.2.cols) ∧
    (numRows (JOINDATASETSV1.execute_join JOINDATASETSV1.load_sample_data.1
          JOINDATASETSV1.load_sample_data.2 "FULL JOIN" "emp_id" "emp_id") +
        numRows (JOINDATASETSV1.execute_join JOINDATASETSV1.load_sample_data.1
          JOINDATASETSV1.load_sample_data.2 "INNER JOIN" "emp_id" "emp_id") =
      numRows (JOINDATASETSV1.execute_join JOINDATASETSV1.load_sample_data.1
          JOINDATASETSV1.load_sample_data.2 "LEFT JOIN" "emp_id" "emp_id") +
        numRows (JOINDATASETSV1.execute_join JOINDATASETSV1.load_sample_data.1
          JOINDATASETSV1.load_sample_data.2 "RIGHT JOIN" "emp_id" "emp_id") ∧
    numRows (JOINDATASETSV1.execute_join JOINDATASETSV1.load_sample_data.1
        JOINDATASETSV1.load_sample_data.2 "FULL JOIN" "emp_id" "emp_id") =
      numRows (JOINDATASETSV1.execute_join JOINDATASETSV1.load_sample_data.1
          JOINDATASETSV1.load_sample_data.2 "LEFT JOIN" "emp_id" "emp_id") +
          numRows (JOINDATASETSV1.execute_join JOINDATASETSV1.load_sample_data.1
            JOINDATASETSV1.load_sample_data.2 "RIGHT JOIN" "emp_id" "emp_id") -
        numRows (JOINDATASETSV1.execute_join JOINDATASETSV1.load_sample_data.1
          JOINDATASETSV1.load_sample_data.2 "INNER JOIN" "emp_id" "emp_id") ∧
    numRows (JOINDATASETSV1.execute_join JOINDATASETSV1.load_sample_data.1
        JOINDATASETSV1.load_sample_data.2 "LEFT JOIN" "emp_id" "emp_id") =
      numRows (JOINDATASETSV1.execute_join JOINDATASETSV1.load_sample_data.1
          JOINDATASETSV1.load_sample_data.2 "INNER JOIN" "emp_id" "emp_id") +
        unmatchedLeftCount JOINDATASETSV1.load_sample_data.1
          JOINDATASETSV1.load_sample_data.2 "emp_id" "emp_id" ∧
    numRows (JOINDATASETSV1.execute_join JOINDATASETSV1.load_sample_data.1
        JOINDATASETSV1.load_sample_data.2 "RIGHT JOIN" "emp_id" "emp_id") =
      numRows (JOINDATASETSV1.execute_join JOINDATASETSV1.load_sample_data.1
          JOINDATASETSV1.load_sample_data.2 "INNER JOIN" "emp_id" "emp_id") +
        unmatchedRightCount JOINDATASETSV1.load_sample_data.1
          JOINDATASETSV1.load_sample_data.2 "emp_id" "emp_id") :=
  ⟨⟨by decide, by decide⟩,
   join_count_identities JOINDATASETSV1.load_sample_data.1
     JOINDATASETSV1.load_sample_data.2 "emp_id" "emp_id" (by decide) (by decide)⟩

lemma rightCols_of_ne {B : Relation} {ka kb : String} (h : ka ≠ kb) :
    rightCols B ka kb = B.cols := by
  simp [rightCols, h]

lemma rightCells_of_ne {B : Relation} {ka kb : String} (h : ka ≠ kb)
    (b : List Value) : rightCells B ka kb b = b := by
  simp [rightCells, h]

lemma leftPadded_of_ne {A B : Relation} {ka kb : String} (h : ka ≠ kb)
    (b : List Value) : leftPadded A B ka kb b = missingPad A.cols.length := by
  simp [leftPadded, h, missingPad, List.map_const']

lemma mergedCols_disjoint {A B : Relation} {ka kb : String}
    (hdisj : ∀ c ∈ A.cols, c ∉ B.cols) (hkk : ka ≠ kb) :
    mergedCols A B ka kb = A.cols ++ B.cols := by
  unfold mergedCols
  rw [rightCols_of_ne hkk]
  congr 1
  · rw [List.map_congr_left (fun c hc => if_neg (hdisj c hc))]
    exact List.map_id A.cols
  · rw [List.map_congr_left (fun c hc => if_neg (fun hc2 => hdisj c hc2 hc))]
    exact List.map_id B.cols

lemma missingPad_getD (n i : Nat) : (missingPad n).getD i .missing = .missing := by
  simp only [missingPad, List.getD_eq_getElem?_getD, List.getElem?_replicate]
  by_cases h : i < n <;> simp [h]

lemma isnaCol_pos (R : Relation) (c : String) (i : Nat)
    (h : R.cols.findIdx? (· == c) = some i) :
    isnaCol R c = .ok (R.rows.map (fun r => (r.getD i .missing).isna)) := by
  simp [isnaCol, h]

lemma findIdx?_append_none {l1 l2 : List String} {p : String → Bool}
    (h : ∀ c ∈ l1, p c = false) :
    (l1 ++ l2).findIdx? p = (l2.findIdx? p).map (· + l1.length) := by
  rw [List.findIdx?_append, List.findIdx?_eq_none_iff.mpr h]
  rfl

lemma pairRow_getD_zero {A B : Relation} {ka kb : String} {a : List Value}
    (b : List Value) (hlen : a.length = A.cols.length) (hpos : 0 < A.cols.length) :
    (pairRow B ka kb a b).getD 0 .missing = a.getD 0 .missing := by
  exact List.getD_append _ _ _ 0 (by omega)

lemma pairRow_getD_len {A B : Relation} {ka kb : String} {a : List Value}
    (hkk : ka ≠ kb) (b : List Value) (hlen : a.length = A.cols.length) :
    (pairRow B ka kb a b).getD A.cols.length .missing = b.getD 0 .missing := by
  unfold pairRow
  rw [rightCells_of_ne hkk, List.getD_append_right _ _ _ _ (by omega), hlen,
    Nat.sub_self]

lemma innerRows_key_cells {A B : Relation} {ka kb : String} {ta : List String}
    (hA : A.cols = ka :: ta) (hkk : ka ≠ kb)
    (hwfA : ∀ r ∈ A.rows, r.length = A.cols.length)
    (hkA : ∀ r ∈ A.rows, r.getD 0 Value.missing ≠ Value.missing)
    (hkB : ∀ r ∈ B.rows, r.getD 0 Value.missing ≠ Value.missing) :
    ∀ r ∈ innerRows A B ka kb,
      r.getD 0 Value.missing ≠ Value.missing ∧
        r.getD A.cols.length Value.missing ≠ Value.missing := by
  intro r hr
  rw [innerRows, List.mem_flatMap] at hr
  obtain ⟨a, ha, hr⟩ := hr
  rw [List.mem_map] at hr
  obtain ⟨b, hbm, rfl⟩ := hr
  have hbB : b ∈ B.rows := (List.mem_filter.mp hbm).1
  have hlen := hwfA a ha
  have hpos : 0 < A.cols.length := by rw [hA]; simp
  constructor
  · rw [pairRow_getD_zero b hlen hpos]
    exact hkA a ha
  · rw [pairRow_getD_len hkk b hlen]
    exact hkB b hbB

lemma outer_mask_eq_not_inner {A B : Relation} {ka kb : String}
    {ta : List String}
    (hA : A.cols = ka :: ta) (hkk : ka ≠ kb)
    (hwfA : ∀ r ∈ A.rows, r.length = A.cols.length)
    (hkA : ∀ r ∈ A.rows, r.getD 0 Value.missing ≠ Value.missing)
    (hkB : ∀ r ∈ B.rows, r.getD 0 Value.missing ≠ Value.missing) :
    ∀ r ∈ outerRows A B ka kb,
      ((r.getD 0 Value.missing).isna || (r.getD A.cols.length Value.missing).isna) =
        !(decide (r ∈ innerRows A B ka kb)) := by
  have hkey := innerRows_key_cells hA hkk hwfA hkA hkB
  have hpos : 0 < A.cols.length := by rw [hA]; simp
  intro r hr
  rw [outerRows, List.mem_append] at hr
  rcases hr with hl | hru
  · rw [leftRows, List.mem_flatMap] at hl
    obtain ⟨a, ha, hr⟩ := hl
    by_cases hm : (matchesOf A B ka kb a).isEmpty
    · simp only [hm, if_true, List.mem_singleton] at hr
      subst hr
      have h2 : ((a ++ missingPad (rightCols B ka kb).length).getD
          A.cols.length Value.missing) = Value.missing := by
        rw [List.getD_append_right _ _ _ _ (by rw [hwfA a ha]),
          hwfA a ha, Nat.sub_self, missingPad_getD]
      have hni : (a ++ missingPad (rightCols B ka kb).length) ∉
          innerRows A B ka kb := by
        intro hc
        exact (hkey _ hc).2 h2
      rw [h2]
      simp [Value.isna, hni]
    · simp only [hm, Bool.false_eq_true, if_false, List.mem_map] at hr
      obtain ⟨b, hbm, rfl⟩ := hr
      have hin : pairRow B ka kb a b ∈ innerRows A B ka kb := by
        rw [innerRows, List.mem_flatMap]
        exact ⟨a, ha, List.mem_map_of_mem _ hbm⟩
      have hk := hkey _ hin
      have e1 : ((pairRow B ka kb a b).getD 0 Value.missing).isna = false :=
        (isna_eq_false_iff _).mpr hk.1
      have e2 : ((pairRow B ka kb a b).getD A.cols.length Value.missing).isna =
          false := (isna_eq_false_iff _).mpr hk.2
      rw [e1, e2]
      simp [hin]
  · rw [List.mem_map] at hru
    obtain ⟨b, hbf, rfl⟩ := hru
    have h0 : ((leftPadded A B ka kb b ++ rightCells B ka kb b).getD
        0 Value.missing) = Value.missing := by
      rw [List.getD_append _ _ _ 0 (by rw [leftPadded_of_ne hkk]; simp [missingPad]; omega),
        leftPadded_of_ne hkk, missingPad_getD]
    have hni : leftPadded A B ka kb b ++ rightCells B ka kb b ∉
        innerRows A B ka kb := by
      intro hc
      exact (hkey _ hc).1 h0
    rw [h0]
    simp [Value.isna, hni]

lemma maskFilter_mk_map (cols : List String) (rows : List (List Value))
    (f : List Value → Bool) :
    maskFilter ⟨cols, rows⟩ (rows.map f) = ⟨cols, rows.filter f⟩ :=
  maskFilter_map ⟨cols, rows⟩ f

/-- C3 (amended): the FULL JOIN WITH NULLS output equals the FULL output
filtered on missingness of the first column of A and the first column of B
in the merged output.  When the first column of each input is its join key,
the key names differ, the two column sets are disjoint, rows are
well-formed and no input key cell is missing, the filter positions 0 and
length of A.cols are exactly the two key columns, and then the kept rows
are exactly the FULL rows that are not INNER rows (the symmetric
anti-join), and every kept row is missing on at least one side key. -/
theorem full_with_nulls_amended (A B : Relation) (ka kb : String)
    (ta tb : List String)
    (hA : A.cols = ka :: ta) (hB : B.cols = kb :: tb)
    (hdisj : ∀ c ∈ A.cols, c ∉ B.cols)
    (hwfA : ∀ r ∈ A.rows, r.length = A.cols.length)
    (hwfB : ∀ r ∈ B.rows, r.length = B.cols.length)
    (hkA : ∀ r ∈ A.rows, r.getD 0 Value.missing ≠ Value.missing)
    (hkB : ∀ r ∈ B.rows, r.getD 0 Value.missing ≠ Value.missing) :
    JOINDATASETSV1.execute_join A B "FULL JOIN WITH NULLS" ka kb =
      some (.ok ⟨A.cols ++ B.cols, (outerRows A B ka kb).filter (fun r =>
        (r.getD 0 Value.missing).isna ||
          (r.getD A.cols.length Value.missing).isna)⟩) ∧
    (outerRows A B ka kb).filter (fun r =>
        (r.getD 0 Value.missing).isna ||
          (r.getD A.cols.length Value.missing).isna) =
      (outerRows A B ka kb).filter (fun r =>
        decide (r ∉ innerRows A B ka kb)) ∧
    ∀ r ∈ (outerRows A B ka kb).filter (fun r =>
        (r.getD 0 Value.missing).isna ||
          (r.getD A.cols.length Value.missing).isna),
      r.getD 0 Value.missing = Value.missing ∨
        r.getD A.cols.length Value.missing = Value.missing := by
  have hka : ka ∈ A.cols := by rw [hA]; exact List.mem_cons_self _ _
  have hkb : kb ∈ B.cols := by rw [hB]; exact List.mem_cons_self _ _
  have hkk : ka ≠ kb := fun h => hdisj ka hka (h ▸ hkb)
  have hmc := mergedCols_disjoint hdisj hkk
  have hhdA : A.cols.headD "" = ka := by rw [hA]; rfl
  have hhdB : B.cols.headD "" = kb := by rw [hB]; rfl
  refine ⟨?_, ?_, ?_⟩
  · rw [exec1_fwn, hhdA, hhdB, merge_ok .outer hka hkb]
    have e1 : isnaCol ⟨mergedCols A B ka kb, joinRows A B ka kb .outer⟩ ka =
        .ok ((joinRows A B ka kb .outer).map
          (fun r => (r.getD 0 Value.missing).isna)) := by
      apply isnaCol_pos
      show (mergedCols A B ka kb).findIdx? (· == ka) = some 0
      rw [hmc, hA]
      simp [List.findIdx?_cons]
    have e2 : isnaCol ⟨mergedCols A B ka kb, joinRows A B ka kb .outer⟩ kb =
        .ok ((joinRows A B ka kb .outer).map
          (fun r => (r.getD A.cols.length Value.missing).isna)) := by
      apply isnaCol_pos
      show (mergedCols A B ka kb).findIdx? (· == kb) = some A.cols.length
      rw [hmc, findIdx?_append_none
        (fun c hc => beq_eq_false_iff_ne.mpr
          (fun h => hdisj c hc (by rw [h]; exact hkb)))]
      rw [hB]
      simp [List.findIdx?_cons]
    simp only [Bind.bind, Except.bind, e1, e2, pure, Except.pure, orMask_map]
    rw [show ((joinRows A B ka kb .outer).map (fun r =>
        (r.getD 0 Value.missing).isna || (r.getD A.cols.length Value.missing).isna)) =
      ((⟨mergedCols A B ka kb, joinRows A B ka kb .outer⟩ : Relation).rows.map
        (fun r => (r.getD 0 Value.missing).isna ||
          (r.getD A.cols.length Value.missing).isna)) from rfl]
    rw [maskFilter_map]
    rw [hmc]
    rfl
  · refine List.filter_congr (fun r hr => ?_)
    rw [outer_mask_eq_not_inner hA hkk hwfA hkA hkB r hr, decide_not]
  · intro r hr
    have h := (List.mem_filter.mp hr).2
    simp only [Bool.or_eq_true] at h
    rcases h with h | h
    · exact Or.inl ((isna_eq_true_iff _).mp h)
    · exact Or.inr ((isna_eq_true_iff _).mp h)

lemma isnaCol_merged_b {A B : Relation} {ka kb : String} {tb : List String}
    (hB : B.cols = kb :: tb) (hdisj : ∀ c ∈ A.cols, c ∉ B.cols) (hkk : ka ≠ kb)
    (how : How) :
    isnaCol ⟨mergedCols A B ka kb, joinRows A B ka kb how⟩ kb =
      .ok ((joinRows A B ka kb how).map
        (fun r => (r.getD A.cols.length Value.missing).isna)) := by
  apply isnaCol_pos
  show (mergedCols A B ka kb).findIdx? (· == kb) = some A.cols.length
  rw [mergedCols_disjoint hdisj hkk, findIdx?_append_none
    (fun c hc => beq_eq_false_iff_ne.mpr
      (fun h => hdisj c hc (by rw [h, hB]; exact List.mem_cons_self _ _)))]
  rw [hB]
  simp [List.findIdx?_cons]

/-- C4 (amended): LEFT JOIN WITH NULL filters the LEFT result on
missingness of the first column of B in the merged output.  When the first
column of B is its join key, the column sets are disjoint, A rows are
well-formed and no B key cell is missing, the filter position is exactly
the B-side key column, and the kept rows are exactly the null-padded rows
of the A rows with no match in B; the result is a sublist of LEFT and every
kept row is missing in every B-origin position. -/
theorem left_with_null_amended (A B : Relation) (ka kb : String)
    (tb : List String)
    (hka : ka ∈ A.cols) (hB : B.cols = kb :: tb)
    (hdisj : ∀ c ∈ A.cols, c ∉ B.cols)
    (hwfA : ∀ r ∈ A.rows, r.length = A.cols.length)
    (hkB : ∀ r ∈ B.rows, r.getD 0 Value.missing ≠ Value.missing) :
    JOINDATASETSV1.execute_join A B "LEFT JOIN WITH NULL" ka kb =
      some (.ok ⟨A.cols ++ B.cols, (leftRows A B ka kb).filter (fun r =>
        (r.getD A.cols.length Value.missing).isna)⟩) ∧
    (leftRows A B ka kb).filter (fun r =>
        (r.getD A.cols.length Value.missing).isna) =
      (A.rows.filter (fun a => (matchesOf A B ka kb a).isEmpty)).map
        (fun a => a ++ missingPad B.cols.length) ∧
    ((leftRows A B ka kb).filter (fun r =>
        (r.getD A.cols.length Value.missing).isna)).Sublist
      (leftRows A B ka kb) ∧
    ∀ r ∈ (leftRows A B ka kb).filter (fun r =>
        (r.getD A.cols.length Value.missing).isna),
      ∀ i, r.getD (A.cols.length + i) Value.missing = Value.missing := by
  have hkb : kb ∈ B.cols := by rw [hB]; exact List.mem_cons_self _ _
  have hkk : ka ≠ kb := fun h => hdisj ka hka (h ▸ hkb)
  have hhdB : B.cols.headD "" = kb := by rw [hB]; rfl
  have hfil : (leftRows A B ka kb).filter (fun r =>
      (r.getD A.cols.length Value.missing).isna) =
      (A.rows.filter (fun a => (matchesOf A B ka kb a).isEmpty)).map
        (fun a => a ++ missingPad B.cols.length) := by
    rw [leftRows, List.filter_flatMap,
      ← flatMap_ite_singleton A.rows
        (fun a => (matchesOf A B ka kb a).isEmpty)
        (fun a => a ++ missingPad B.cols.length)]
    refine List.flatMap_congr (fun a ha => ?_)
    by_cases hm : (matchesOf A B ka kb a).isEmpty
    · simp only [hm, if_true]
      have hmsk : ((a ++ missingPad (rightCols B ka kb).length).getD
          A.cols.length Value.missing).isna = true := by
        rw [List.getD_append_right _ _ _ _ (by rw [hwfA a ha]), hwfA a ha,
          Nat.sub_self, missingPad_getD]
        rfl
      rw [rightCols_of_ne hkk] at hmsk ⊢
      rw [List.getD_eq_getElem?_getD] at hmsk
      simp [List.filter_cons, hmsk]
    · simp only [hm, Bool.false_eq_true, if_false]
      refine List.filter_eq_nil_iff.mpr (fun r hrm => ?_)
      rw [List.mem_map] at hrm
      obtain ⟨b, hbm, rfl⟩ := hrm
      rw [pairRow_getD_len hkk b (hwfA a ha)]
      intro hc
      exact hkB b (List.mem_filter.mp hbm).1 ((isna_eq_true_iff _).mp hc)
  refine ⟨?_, hfil, List.filter_sublist _, ?_⟩
  · rw [exec1_lwn, hhdB, merge_ok .left hka hkb]
    simp only [Bind.bind, Except.bind, isnaCol_merged_b hB hdisj hkk .left,
      pure, Except.pure]
    rw [show ((joinRows A B ka kb .left).map (fun r =>
        (r.getD A.cols.length Value.missing).isna)) =
      ((⟨mergedCols A B ka kb, joinRows A B ka kb .left⟩ : Relation).rows.map
        (fun r => (r.getD A.cols.length Value.missing).isna)) from rfl]
    rw [maskFilter_map, mergedCols_disjoint hdisj hkk]
    rfl
  · intro r hr i
    rw [hfil, List.mem_map] at hr
    obtain ⟨a, haf, rfl⟩ := hr
    have hlen := hwfA a (List.mem_filter.mp haf).1
    rw [List.getD_append_right _ _ _ _ (by omega), hlen, missingPad_getD]

/-- Witness for `full_with_nulls_amended` at a concrete input. -/
theorem full_with_nulls_amended_witness :
    ((Relation.mk ["ja"] [[Value.int 1]]).cols = "ja" :: [] ∧
     (Relation.mk ["jb"] [[Value.int 1], [Value.int 2]]).cols = "jb" :: [] ∧
     (∀ c ∈ (Relation.mk ["ja"] [[Value.int 1]]).cols,
        c ∉ (Relation.mk ["jb"] [[Value.int 1], [Value.int 2]]).cols) ∧
     (∀ r ∈ (Relation.mk ["ja"] [[Value.int 1]]).rows, r.length = 1) ∧
     (∀ r ∈ (Relation.mk ["jb"] [[Value.int 1], [Value.int 2]]).rows,
        r.length = 1) ∧
     (∀ r ∈ (Relation.mk ["ja"] [[Value.int 1]]).rows,
        r.getD 0 Value.missing ≠ Value.missing) ∧
     (∀ r ∈ (Relation.mk ["jb"] [[Value.int 1], [Value.int 2]]).rows,
        r.getD 0 Value.missing ≠ Value.missing)) ∧
    (JOINDATASETSV1.execute_join ⟨["ja"], [[Value.int 1]]⟩
        ⟨["jb"], [[Value.int 1], [Value.int 2]]⟩ "FULL JOIN WITH NULLS"
        "ja" "jb" =
      some (.ok ⟨["ja", "jb"],
        (outerRows ⟨["ja"], [[Value.int 1]]⟩
            ⟨["jb"], [[Value.int 1], [Value.int 2]]⟩ "ja" "jb").filter (fun r =>
          (r.getD 0 Value.missing).isna || (r.getD 1 Value.missing).isna)⟩) ∧
     (outerRows ⟨["ja"], [[Value.int 1]]⟩
         ⟨["jb"], [[Value.int 1], [Value.int 2]]⟩ "ja" "jb").filter (fun r =>
        (r.getD 0 Value.missing).isna || (r.getD 1 Value.missing).isna) =
      (outerRows ⟨["ja"], [[Value.int 1]]⟩
          ⟨["jb"], [[Value.int 1], [Value.int 2]]⟩ "ja" "jb").filter (fun r =>
        decide (r ∉ innerRows ⟨["ja"], [[Value.int 1]]⟩
          ⟨["jb"], [[Value.int 1], [Value.int 2]]⟩ "ja" "jb")) ∧
     ∀ r ∈ (outerRows ⟨["ja"], [[Value.int 1]]⟩
         ⟨["jb"], [[Value.int 1], [Value.int 2]]⟩ "ja" "jb").filter (fun r =>
        (r.getD 0 Value.missing).isna || (r.getD 1 Value.missing).isna),
       r.getD 0 Value.missing = Value.missing ∨
         r.getD 1 Value.missing = Value.missing) :=
  ⟨⟨rfl, rfl, by decide, by decide, by decide, by decide, by decide⟩,
   full_with_nulls_amended ⟨["ja"], [[Value.int 1]]⟩
     ⟨["jb"], [[Value.int 1], [Value.int 2]]⟩ "ja" "jb" [] []
     rfl rfl (by decide) (by decide) (by decide) (by decide) (by decide)⟩

/-- Witness for `left_with_null_amended` at a concrete input. -/
theorem left_with_null_amended_witness :
    ("ja" ∈ (Relation.mk ["ja"] [[Value.int 1], [Value.int 3]]).cols ∧
     (Relation.mk ["jb"] [[Value.int 1]]).cols = "jb" :: [] ∧
     (∀ c ∈ (Relation.mk ["ja"] [[Value.int 1], [Value.int 3]]).cols,
        c ∉ (Relation.mk ["jb"] [[Value.int 1]]).cols) ∧
     (∀ r ∈ (Relation.mk ["ja"] [[Value.int 1], [Value.int 3]]).rows,
        r.length = 1) ∧
     (∀ r ∈ (Relation.mk ["jb"] [[Value.int 1]]).rows,
        r.getD 0 Value.missing ≠ Value.missing)) ∧
    (JOINDATASETSV1.execute_join ⟨["ja"], [[Value.int 1], [Value.int 3]]⟩
        ⟨["jb"], [[Value.int 1]]⟩ "LEFT JOIN WITH NULL" "ja" "jb" =
      some (.ok ⟨["ja", "jb"],
        (leftRows ⟨["ja"], [[Value.int 1], [Value.int 3]]⟩
            ⟨["jb"], [[Value.int 1]]⟩ "ja" "jb").filter (fun r =>
          (r.getD 1 Value.missing).isna)⟩) ∧
     (leftRows ⟨["ja"], [[Value.int 1], [Value.int 3]]⟩
         ⟨["jb"], [[Value.int 1]]⟩ "ja" "jb").filter (fun r =>
        (r.getD 1 Value.missing).isna) =
      ((Relation.mk ["ja"] [[Value.int 1], [Value.int 3]]).rows.filter (fun a =>
          (matchesOf ⟨["ja"], [[Value.int 1], [Value.int 3]]⟩
            ⟨["jb"], [[Value.int 1]]⟩ "ja" "jb" a).isEmpty)).map
        (fun a => a ++ missingPad 1) ∧
     ((leftRows ⟨["ja"], [[Value.int 1], [Value.int 3]]⟩
         ⟨["jb"], [[Value.int 1]]⟩ "ja" "jb").filter (fun r =>
        (r.getD 1 Value.missing).isna)).Sublist
      (leftRows ⟨["ja"], [[Value.int 1], [Value.int 3]]⟩
        ⟨["jb"], [[Value.int 1]]⟩ "ja" "jb") ∧
     ∀ r ∈ (leftRows ⟨["ja"], [[Value.int 1], [Value.int 3]]⟩
         ⟨["jb"], [[Value.int 1]]⟩ "ja" "jb").filter (fun r =>
        (r.getD 1 Value.missing).isna),
       ∀ i, r.getD (1 + i) Value.missing = Value.missing) :=
  ⟨⟨by decide, rfl, by decide, by decide, by decide⟩,
   left_with_null_amended ⟨["ja"], [[Value.int 1], [Value.int 3]]⟩
     ⟨["jb"], [[Value.int 1]]⟩ "ja" "jb" []
     (by decide) rfl (by decide) (by decide) (by decide)⟩

lemma filterColFails_inner (A B : Relation) (ka kb : String) :
    filterColFails A B ka kb "INNER JOIN" = false := rfl

lemma filterColFails_full (A B : Relation) (ka kb : String) :
    filterColFails A B ka kb "FULL JOIN" = false := rfl

lemma filterColFails_left (A B : Relation) (ka kb : String) :
    filterColFails A B ka kb "LEFT JOIN" = false := rfl

lemma filterColFails_right (A B : Relation) (ka kb : String) :
    filterColFails A B ka kb "RIGHT JOIN" = false := rfl

lemma filterColFails_fwn (A B : Relation) (ka kb : String) :
    filterColFails A B ka kb "FULL JOIN WITH NULLS" =
      (((mergedCols A B ka kb).findIdx? (· == A.cols.headD "")).isNone ||
        ((mergedCols A B ka kb).findIdx? (· == B.cols.headD "")).isNone) := rfl

lemma filterColFails_lwn (A B : Relation) (ka kb : String) :
    filterColFails A B ka kb "LEFT JOIN WITH NULL" =
      ((mergedCols A B ka kb).findIdx? (· == B.cols.headD "")).isNone := rfl

lemma filterColFails_rwn (A B : Relation) (ka kb : String) :
    filterColFails A B ka kb "RIGHT JOIN WITH NULL" =
      ((mergedCols A B ka kb).findIdx? (· == A.cols.headD "")).isNone := rfl

/-- C7 (amended): for the seven recognized join types, the engine fails
exactly when a join key is not a column of its relation, or, only for the
three WITH-NULL variants, additionally when the column the filter selects
(the first column of the respective input) is not a column of the merged
output; nothing else makes it fail. -/
theorem invalid_key_error_iff (A B : Relation) (jt ka kb : String)
    (hjt : jt ∈ recognizedJoinTypes) :
    isErr (JOINDATASETSV1.execute_join A B jt ka kb) = true ↔
      (¬(ka ∈ A.cols ∧ kb ∈ B.cols) ∨ filterColFails A B ka kb jt = true) := by
  simp only [recognizedJoinTypes, List.mem_cons, List.mem_singleton,
    List.not_mem_nil, or_false] at hjt
  rcases hjt with rfl | rfl | rfl | rfl | rfl | rfl | rfl
  · rw [exec1_inner, filterColFails_inner]
    by_cases hka : ka ∈ A.cols
    · by_cases hkb : kb ∈ B.cols
      · simp [merge_ok .inn hka hkb, isErr, hka, hkb]
      · simp [merge, hka, hkb, isErr]
    · simp [merge, hka, isErr]
  · rw [exec1_full, filterColFails_full]
    by_cases hka : ka ∈ A.cols
    · by_cases hkb : kb ∈ B.cols
      · simp [merge_ok .outer hka hkb, isErr, hka, hkb]
      · simp [merge, hka, hkb, isErr]
    · simp [merge, hka, isErr]
  · rw [exec1_fwn, filterColFails_fwn]
    by_cases hka : ka ∈ A.cols
    · by_cases hkb : kb ∈ B.cols
      · rw [merge_ok .outer hka hkb]
        set ca := A.cols.headD "" with hca
        set cb := B.cols.headD "" with hcb
        rcases ha : (mergedCols A B ka kb).findIdx? (· == ca) with _ | i
        · simp [Bind.bind, Except.bind, isnaCol, ha, isErr, hka, hkb]
        · rcases hb : (mergedCols A B ka kb).findIdx? (· == cb) with _ | j
          · simp [Bind.bind, Except.bind, isnaCol, ha, hb, isErr, hka, hkb]
          · simp [Bind.bind, Except.bind, isnaCol, ha, hb, isErr, hka, hkb,
              pure, Except.pure]
      · simp [Bind.bind, Except.bind, merge, hka, hkb, isErr]
    · simp [Bind.bind, Except.bind, merge, hka, isErr]
  · rw [exec1_left, filterColFails_left]
    by_cases hka : ka ∈ A.cols
    · by_cases hkb : kb ∈ B.cols
      · simp [merge_ok .left hka hkb, isErr, hka, hkb]
      · simp [merge, hka, hkb, isErr]
    · simp [merge, hka, isErr]
  · rw [exec1_lwn, filterColFails_lwn]
    by_cases hka : ka ∈ A.cols
    · by_cases hkb : kb ∈ B.cols
      · rw [merge_ok .left hka hkb]
        set cb := B.cols.headD "" with hcb
        rcases hb : (mergedCols A B ka kb).findIdx? (· == cb) with _ | j
        · simp [Bind.bind, Except.bind, isnaCol, hb, isErr, hka, hkb]
        · simp [Bind.bind, Except.bind, isnaCol, hb, isErr, hka, hkb,
            pure, Except.pure]
      · simp [Bind.bind, Except.bind, merge, hka, hkb, isErr]
    · simp [Bind.bind, Except.bind, merge, hka, isErr]
  · rw [exec1_right, filterColFails_right]
    by_cases hka : ka ∈ A.cols
    · by_cases hkb : kb ∈ B.cols
      · simp [merge_ok .right hka hkb, isErr, hka, hkb]
      · simp [merge, hka, hkb, isErr]
    · simp [merge, hka, isErr]
  · rw [exec1_rwn, filterColFails_rwn]
    by_cases hka : ka ∈ A.cols
    · by_cases hkb : kb ∈ B.cols
      · rw [merge_ok .right hka hkb]
        set ca := A.cols.headD "" with hca
        rcases ha : (mergedCols A B ka kb).findIdx? (· == ca) with _ | i
        · simp [Bind.bind, Except.bind, isnaCol, ha, isErr, hka, hkb]
        · simp [Bind.bind, Except.bind, isnaCol, ha, isErr, hka, hkb,
            pure, Except.pure]
      · simp [Bind.bind, Except.bind, merge, hka, hkb, isErr]
    · simp [Bind.bind, Except.bind, merge, hka, isErr]

/-- Witness for `invalid_key_error_iff` at a concrete input: an invalid key
on a recognized join type. -/
theorem invalid_key_error_iff_witness :
    "INNER JOIN" ∈ recognizedJoinTypes ∧
    (isErr (JOINDATASETSV1.execute_join ⟨["a"], []⟩ ⟨["b"], []⟩ "INNER JOIN"
        "zz" "b") = true ↔
      (¬("zz" ∈ (Relation.mk ["a"] []).cols ∧
          "b" ∈ (Relation.mk ["b"] []).cols) ∨
        filterColFails ⟨["a"], []⟩ ⟨["b"], []⟩ "zz" "b" "INNER JOIN" = true)) :=
  ⟨by decide,
   invalid_key_error_iff ⟨["a"], []⟩ ⟨["b"], []⟩ "INNER JOIN" "zz" "b"
     (by decide)⟩

lemma mem_rightCols {B : Relation} {ka kb c : String}
    (hcB : c ∈ B.cols) (hckb : c ≠ kb) : c ∈ rightCols B ka kb := by
  by_cases h : ka = kb
  · rw [rightCols, if_pos h]
    refine List.mem_filter.mpr ⟨hcB, ?_⟩
    simp [hckb]
  · rw [rightCols, if_neg h]
    exact hcB

lemma zip_filter_getD (cols : List String) (cells : List Value)
    (kb c : String) (hc : c ∈ cols) (hne : c ≠ kb)
    (hwf : cells.length = cols.length) :
    (((cols.zip cells).filter (fun p => !(p.1 == kb))).map Prod.snd).getD
        ((cols.filter (fun x => !(x == kb))).findIdx (· == c)) Value.missing =
      cells.getD (cols.findIdx (· == c)) Value.missing := by
  induction cols generalizing cells with
  | nil => cases hc
  | cons d cols ih =>
    rcases cells with _ | ⟨v, cells⟩
    · simp at hwf
    · have hwf2 : cells.length = cols.length := by
        simpa using hwf
      by_cases hdk : d = kb
      · subst hdk
        have hdc : (d == c) = false := beq_eq_false_iff_ne.mpr (Ne.symm hne)
        have hcc : c ∈ cols := by
          rcases List.mem_cons.mp hc with h | h
          · exact absurd h.symm (Ne.symm hne)
          · exact h
        simp only [List.zip_cons_cons, List.filter_cons, beq_self_eq_true,
          Bool.not_true, Bool.false_eq_true, if_false, List.findIdx_cons,
          hdc, Bool.cond_false, List.getD_cons_succ]
        exact ih cells hcc hwf2
      · have hdk2 : (d == kb) = false := beq_eq_false_iff_ne.mpr hdk
        by_cases hdc : d = c
        · subst hdc
          simp [List.zip_cons_cons, List.filter_cons, hdk2,
            List.findIdx_cons]
        · have hdc2 : (d == c) = false := beq_eq_false_iff_ne.mpr hdc
          have hcc : c ∈ cols := by
            rcases List.mem_cons.mp hc with h | h
            · exact absurd h.symm hdc
            · exact h
          simp only [List.zip_cons_cons, List.filter_cons, hdk2,
            Bool.not_false, if_true, List.map_cons, List.findIdx_cons, hdc2,
            Bool.cond_false, List.getD_cons_succ]
          exact ih cells hcc hwf2

lemma rightCells_getD {B : Relation} {ka kb c : String} {b : List Value}
    (hcB : c ∈ B.cols) (hckb : c ≠ kb) (hwf : b.length = B.cols.length) :
    (rightCells B ka kb b).getD ((rightCols B ka kb).findIdx (· == c))
        Value.missing = b.getD (B.cols.findIdx (· == c)) Value.missing := by
  by_cases h : ka = kb
  · rw [rightCells, rightCols, if_pos h, if_pos h]
    exact zip_filter_getD B.cols b kb c hcB hckb hwf
  · rw [rightCells, rightCols, if_neg h, if_neg h]

/-- C8 (confirmed): when A and B share a column name c other than the join
keys, the merged output contains both copies, disambiguated as c_x and c_y:
position findIdx of c in A.cols holds the column named c_x and position
length of A.cols plus findIdx of c in the kept B columns holds the column
named c_y, and in every matched output row those two positions carry
exactly the original A-side and B-side cells of column c, neither
overwritten. -/
theorem collision_columns_preserved (A B : Relation) (ka kb c : String)
    (hka : ka ∈ A.cols) (hkb : kb ∈ B.cols)
    (hcA : c ∈ A.cols) (hcB : c ∈ B.cols) (hcka : c ≠ ka) (hckb : c ≠ kb)
    (hwfA : ∀ r ∈ A.rows, r.length = A.cols.length)
    (hwfB : ∀ r ∈ B.rows, r.length = B.cols.length) :
    JOINDATASETSV1.execute_join A B "INNER JOIN" ka kb =
      some (.ok ⟨mergedCols A B ka kb, innerRows A B ka kb⟩) ∧
    (c ++ "_x") ∈ mergedCols A B ka kb ∧
    (c ++ "_y") ∈ mergedCols A B ka kb ∧
    (mergedCols A B ka kb).getD (A.cols.findIdx (· == c)) "" = c ++ "_x" ∧
    (mergedCols A B ka kb).getD
        (A.cols.length + (rightCols B ka kb).findIdx (· == c)) "" =
      c ++ "_y" ∧
    ∀ a b, a ∈ A.rows → b ∈ matchesOf A B ka kb a →
      (pairRow B ka kb a b).getD (A.cols.findIdx (· == c)) Value.missing =
          a.getD (A.cols.findIdx (· == c)) Value.missing ∧
        (pairRow B ka kb a b).getD
            (A.cols.length + (rightCols B ka kb).findIdx (· == c))
            Value.missing =
          b.getD (B.cols.findIdx (· == c)) Value.missing := by
  have hcr : c ∈ rightCols B ka kb := mem_rightCols hcB hckb
  have hiA : A.cols.findIdx (· == c) < A.cols.length :=
    List.findIdx_lt_length.mpr ⟨c, hcA, by simp⟩
  have hjB : (rightCols B ka kb).findIdx (· == c) <
      (rightCols B ka kb).length :=
    List.findIdx_lt_length.mpr ⟨c, hcr, by simp⟩
  have hgetA : A.cols[A.cols.findIdx (· == c)]? = some c := by
    rw [List.getElem?_eq_getElem hiA]
    exact congrArg some (eq_of_beq (List.findIdx_getElem (w := hiA)))
  have hgetB : (rightCols B ka kb)[(rightCols B ka kb).findIdx (· == c)]? =
      some c := by
    rw [List.getElem?_eq_getElem hjB]
    exact congrArg some (eq_of_beq (List.findIdx_getElem (w := hjB)))
  refine ⟨?_, ?_, ?_, ?_, ?_, ?_⟩
  · rw [exec1_inner, merge_ok .inn hka hkb]
    rfl
  · refine List.mem_append.mpr (Or.inl ?_)
    exact List.mem_map.mpr ⟨c, hcA, by rw [if_pos hcr]⟩
  · refine List.mem_append.mpr (Or.inr ?_)
    exact List.mem_map.mpr ⟨c, hcr, by rw [if_pos hcA]⟩
  · rw [mergedCols, List.getD_eq_getElem?_getD, List.getElem?_append_left
      (by rw [List.length_map]; exact hiA), List.getElem?_map, hgetA]
    simp [hcr]
  · rw [mergedCols, List.getD_eq_getElem?_getD, List.getElem?_append_right
      (by rw [List.length_map]; omega), List.length_map,
      Nat.add_sub_cancel_left, List.getElem?_map, hgetB]
    simp [hcA]
  · intro a b ha hbm
    have hlen := hwfA a ha
    have hblen := hwfB b (List.mem_filter.mp hbm).1
    constructor
    · exact List.getD_append _ _ _ _ (by omega)
    · rw [pairRow, List.getD_append_right _ _ _ _ (by omega), hlen,
        Nat.add_sub_cancel_left]
      exact rightCells_getD hcB hckb hblen

/-- Witness for `collision_columns_preserved` at a concrete input with the
shared non-key column `p`. -/
theorem collision_columns_preserved_witness :
    ("j" ∈ (Relation.mk ["j", "p"] [[Value.int 1, Value.int 10]]).cols ∧
     "k" ∈ (Relation.mk ["k", "p"] [[Value.int 1, Value.int 20]]).cols ∧
     "p" ∈ (Relation.mk ["j", "p"] [[Value.int 1, Value.int 10]]).cols ∧
     "p" ∈ (Relation.mk ["k", "p"] [[Value.int 1, Value.int 20]]).cols ∧
     "p" ≠ "j" ∧ "p" ≠ "k" ∧
     (∀ r ∈ (Relation.mk ["j", "p"] [[Value.int 1, Value.int 10]]).rows,
        r.length = 2) ∧
     (∀ r ∈ (Relation.mk ["k", "p"] [[Value.int 1, Value.int 20]]).rows,
        r.length = 2)) ∧
    (JOINDATASETSV1.execute_join ⟨["j", "p"], [[Value.int 1, Value.int 10]]⟩
        ⟨["k", "p"], [[Value.int 1, Value.int 20]]⟩ "INNER JOIN" "j" "k" =
      some (.ok ⟨mergedCols ⟨["j", "p"], [[Value.int 1, Value.int 10]]⟩
          ⟨["k", "p"], [[Value.int 1, Value.int 20]]⟩ "j" "k",
        innerRows ⟨["j", "p"], [[Value.int 1, Value.int 10]]⟩
          ⟨["k", "p"], [[Value.int 1, Value.int 20]]⟩ "j" "k"⟩) ∧
     ("p" ++ "_x") ∈ mergedCols ⟨["j", "p"], [[Value.int 1, Value.int 10]]⟩
        ⟨["k", "p"], [[Value.int 1, Value.int 20]]⟩ "j" "k" ∧
     ("p" ++ "_y") ∈ mergedCols ⟨["j", "p"], [[Value.int 1, Value.int 10]]⟩
        ⟨["k", "p"], [[Value.int 1, Value.int 20]]⟩ "j" "k" ∧
     (mergedCols ⟨["j", "p"], [[Value.int 1, Value.int 10]]⟩
        ⟨["k", "p"], [[Value.int 1, Value.int 20]]⟩ "j" "k").getD 1 "" =
       "p" ++ "_x" ∧
     (mergedCols ⟨["j", "p"], [[Value.int 1, Value.int 10]]⟩
        ⟨["k", "p"], [[Value.int 1, Value.int 20]]⟩ "j" "k").getD (2 + 1) "" =
       "p" ++ "_y" ∧
     ∀ a b, a ∈ (Relation.mk ["j", "p"] [[Value.int 1, Value.int 10]]).rows →
       b ∈ matchesOf ⟨["j", "p"], [[Value.int 1, Value.int 10]]⟩
         ⟨["k", "p"], [[Value.int 1, Value.int 20]]⟩ "j" "k" a →
       (pairRow ⟨["k", "p"], [[Value.int 1, Value.int 20]]⟩ "j" "k" a b).getD
           1 Value.missing = a.getD 1 Value.missing ∧
         (pairRow ⟨["k", "p"], [[Value.int 1, Value.int 20]]⟩ "j" "k" a b).getD
             (2 + 1) Value.missing = b.getD 1 Value.missing) :=
  ⟨⟨by decide, by decide, by decide, by decide, by decide, by decide,
    by decide, by decide⟩,
   collision_columns_preserved ⟨["j", "p"], [[Value.int 1, Value.int 10]]⟩
     ⟨["k", "p"], [[Value.int 1, Value.int 20]]⟩ "j" "k" "p"
     (by decide) (by decide) (by decide) (by decide) (by decide) (by decide)
     (by decide) (by decide)⟩
